import Mathlib

/-!
Shallow embedding of the `ipfs-mcp-server` core (`ipfs_mcp_server.py`): the
in-memory CID registry `known_cids`, the resource-listing and resource-reading
handlers, and the tool-call handler with its `add_ipfs_resource` and
`fetch_ipfs_content` branches.  External collaborators (the `httpx` client and
the protocol session used for notifications) are modelled as oracles passed to
the handlers; everything else is translated from the source.
-/

namespace IPFSMcp

/-- The configured gateway base URL (module constant `IPFS_GATEWAY`). -/
def IPFS_GATEWAY : String := "https://ipfs.io/ipfs/"

/-- A Python value that is either `None` or a string.  `None` arises from
`arguments.get(key)` on an absent key. -/
abbrev PyVal := Option String

/-- Python string interpolation of such a value: an f-string renders `None` as
the text `None`. -/
def pyStr : PyVal → String
  | none => "None"
  | some s => s

/-- Python `s.startswith(p)`: code-point-level prefix test. -/
def strStartsWith (s p : String) : Bool := p.data.isPrefixOf s.data

/-- Python slicing `s[n:]`: drop the first `n` code points. -/
def strDrop (s : String) (n : Nat) : String := String.mk (s.data.drop n)

/-- Python slicing `s[:n]`: take the first `n` code points. -/
def strTake (s : String) (n : Nat) : String := String.mk (s.data.take n)

/-- Python `len(s)`: the number of code points. -/
def strLen (s : String) : Nat := s.data.length

/-- The metadata dict stored under a CID key in `known_cids`.  Each of the dict
keys `"name"`, `"description"`, `"mime_type"` is either absent (outer `none`)
or bound to a Python value (which itself may be `None`). -/
structure CidMeta where
  name? : Option PyVal
  description? : Option PyVal
  mime_type? : Option PyVal
deriving Repr, DecidableEq

/-- Python `d.get(key, default)` on a metadata field, with a string default:
the stored value when the key is present (even when that value is `None`), the
default otherwise. -/
def metaGet : Option PyVal → String → PyVal
  | some v, _ => v
  | none, d => some d

/-- `self.known_cids`: a Python dict from CID key to metadata, with insertion
order and unique keys.  Keys have type `PyVal` because `arguments.get("cid")`
can put the `None` key into the dict. -/
abbrev Registry := List (PyVal × CidMeta)

/-- Python `d.get(k)` / `d[k]` lookup. -/
def dictGet : Registry → PyVal → Option CidMeta
  | [], _ => none
  | (k', v') :: rest, k => if k' = k then some v' else dictGet rest k

/-- Python `d[k] = v`: overwrite in place when the key is present, append
otherwise. -/
def dictInsert : Registry → PyVal → CidMeta → Registry
  | [], k, v => [(k, v)]
  | (k', v') :: rest, k, v =>
      if k' = k then (k, v) :: rest else (k', v') :: dictInsert rest k v

/-- The pre-seeded `known_cids` built in `IPFSServer.__init__`. -/
def initRegistry : Registry :=
  [(some "QmYwAPJzv5CZsnA625s3Xf2nemtYgPpHdWEz79ojWnPbdG",
    { name? := some (some "IPFS Introduction")
    , description? := some (some "An introduction to IPFS concepts")
    , mime_type? := some (some "text/plain") })]

/-- One HTTP response as `httpx` hands it to this code: integer status, raw
body bytes (`response.content`, each a byte value), the outcome of
`response.text` (`some t` when decoding as text succeeds, `none` when it
raises `UnicodeDecodeError`), and the `str()` rendering of the
`HTTPStatusError` that `raise_for_status` raises on a non-2xx status. -/
structure HttpResponse where
  status : Nat
  content : List Nat
  textDecode : Option String
  statusMsg : String
deriving Repr, DecidableEq

/-- Outcome of one `await self.http_client.get(url)`: either a response, or a
raised transport exception (timeout, connection error, DNS failure) carrying
its `str()` rendering. -/
inductive GetOutcome where
  | ok (resp : HttpResponse)
  | fail (detail : String)
deriving Repr, DecidableEq

/-- The standard base64 alphabet used by `base64.b64encode`. -/
def b64chars : List Char :=
  "ABCDEFGHIJKLMNOPQRSTUVWXYZabcdefghijklmnopqrstuvwxyz0123456789+/".data

/-- The base64 digit for a 6-bit group. -/
def b64char (n : Nat) : Char := b64chars.getD n '='

/-- `base64.b64encode(bytes).decode('ascii')`: standard base64 with `=`
padding, three input bytes per four output characters. -/
def b64encode : List Nat → String
  | [] => ""
  | [a] =>
      String.mk [b64char (a / 4 % 64), b64char (a % 4 * 16), '=', '=']
  | [a, b] =>
      String.mk [b64char (a / 4 % 64), b64char (a % 4 * 16 + b / 16),
                 b64char (b % 16 * 4), '=']
  | a :: b :: c :: rest =>
      String.mk [b64char (a / 4 % 64), b64char (a % 4 * 16 + b / 16),
                 b64char (b % 16 * 4 + c / 64), b64char (c % 64)]
        ++ b64encode rest

/-- The distinct failure modes of `handle_read_resource`, one constructor per
`raise` site (each a `ValueError` with its own message format). -/
inductive FetchError where
  | invalidAddress (uri : String)
  | invalidIdentifier (cid : String)
  | notFound (cid : String)
  | gatewayError (status : Nat) (cid : String)
  | transportError (detail : String)
deriving Repr, DecidableEq

/-- Lines 98-121 of `handle_read_resource`, applied to the outcome of the one
GET: `raise_for_status` raises on any non-2xx status (caught as
`HTTPStatusError` and split on 404), a transport exception is caught by the
generic `except`, and on 2xx the body is returned as text or, when text
decoding fails, as base64 behind a binary-content marker. -/
def classifyFetch (cid : String) : GetOutcome → Except FetchError String
  | .fail d => .error (.transportError d)
  | .ok resp =>
      if 200 ≤ resp.status ∧ resp.status < 300 then
        match resp.textDecode with
        | some t => .ok t
        | none => .ok ("[Binary content - Base64 encoded]\n" ++ b64encode resp.content)
      else if resp.status = 404 then .error (.notFound cid)
      else .error (.gatewayError resp.status cid)

/-- The fetch performed by `handle_read_resource`: one GET against
`IPFS_GATEWAY + cid`, classified as above. -/
def fetchCore (get : String → GetOutcome) (cid : String) : Except FetchError String :=
  classifyFetch cid (get (IPFS_GATEWAY ++ cid))

/-- `handle_read_resource(uri)`: scheme check, `uri[7:]`, the coarse
`not cid or len(cid) < 46` check, then the gateway fetch. -/
def handle_read_resource (get : String → GetOutcome) (uri : String) :
    Except FetchError String :=
  if ¬ strStartsWith uri "ipfs://" then .error (.invalidAddress uri)
  else
    let cid := strDrop uri 7
    if cid = "" ∨ strLen cid < 46 then .error (.invalidIdentifier cid)
    else fetchCore get cid

/-- One protocol resource descriptor (`types.Resource`), fields as built in
`handle_list_resources`. -/
structure Resource where
  uri : String
  name : PyVal
  description : PyVal
  mimeType : PyVal
deriving Repr, DecidableEq

/-- One iteration of the loop in `handle_list_resources`.  The default
arguments of the three `metadata.get` calls are evaluated eagerly, so a `None`
key raises `TypeError` at `cid[:8]` before any lookup happens. -/
def renderEntry : PyVal × CidMeta → Except String Resource
  | (some cid, m) => .ok
      { uri := "ipfs://" ++ cid
      , name := metaGet m.name? ("IPFS File " ++ strTake cid 8 ++ "...")
      , description := metaGet m.description? ("Content from IPFS CID: " ++ cid)
      , mimeType := metaGet m.mime_type? "application/octet-stream" }
  | (none, _) => .error "TypeError: NoneType object is not subscriptable"

/-- `handle_list_resources`: render each registry entry in insertion order; an
exception from any iteration propagates out of the handler. -/
def handle_list_resources : Registry → Except String (List Resource)
  | [] => .ok []
  | p :: rest =>
      match renderEntry p with
      | .error e => .error e
      | .ok x =>
          match handle_list_resources rest with
          | .error e => .error e
          | .ok xs => .ok (x :: xs)

/-- One tool descriptor (`types.Tool`), keeping the name, description and the
required/optional split of the declared input schema. -/
structure Tool where
  name : String
  description : String
  requiredArgs : List String
  optionalArgs : List String
deriving Repr, DecidableEq

/-- `handle_list_tools`: the two fixed tool descriptors. -/
def handle_list_tools : List Tool :=
  [ { name := "add_ipfs_resource"
    , description := "Add a new IPFS CID to track as a resource"
    , requiredArgs := ["cid", "name"]
    , optionalArgs := ["description", "mime_type"] }
  , { name := "fetch_ipfs_content"
    , description := "Fetch content from any IPFS CID (not just tracked resources)"
    , requiredArgs := ["cid"]
    , optionalArgs := [] } ]

/-- The `arguments` dict of a tool call, restricted to the keys the handler
reads; a `none` field is an absent key (`arguments.get` then yields `None`). -/
structure Args where
  cid : PyVal
  name : PyVal
  description : PyVal
  mime_type : PyVal
deriving Repr, DecidableEq

/-- Result of one `handle_call_tool` invocation: the registry afterwards, how
many `resource_list_changed` notifications were delivered, and either the
returned `TextContent` texts or the `str()` of a propagated exception. -/
structure CallOutcome where
  registry : Registry
  notifications : Nat
  result : Except String (List String)

/-- `handle_call_tool(name, arguments)`.  `notify` is the outcome of
`await session.send_resource_list_changed()` (an `.error` there is a raised
exception, which the add branch does not catch). -/
def handle_call_tool (get : String → GetOutcome) (notify : Except String Unit)
    (registry : Registry) (name : String) (args : Args) : CallOutcome :=
  if name = "add_ipfs_resource" then
    let cid := args.cid
    let resource_name := args.name
    let description := args.description.getD ("Content from IPFS CID: " ++ pyStr cid)
    let mime_type := args.mime_type.getD "application/octet-stream"
    let registry' := dictInsert registry cid
      { name? := some resource_name
      , description? := some (some description)
      , mime_type? := some (some mime_type) }
    match notify with
    | .ok _ =>
        { registry := registry', notifications := 1
        , result := .ok ["Successfully added IPFS resource: " ++ pyStr resource_name
            ++ " (CID: " ++ pyStr cid ++ ")"] }
    | .error d =>
        { registry := registry', notifications := 0, result := .error d }
  else if name = "fetch_ipfs_content" then
    let cid := args.cid
    match get (IPFS_GATEWAY ++ pyStr cid) with
    | .fail d =>
        { registry := registry, notifications := 0
        , result := .ok ["Error fetching IPFS content: " ++ d] }
    | .ok resp =>
        if 200 ≤ resp.status ∧ resp.status < 300 then
          match resp.textDecode with
          | some t => { registry := registry, notifications := 0, result := .ok [t] }
          | none =>
              { registry := registry, notifications := 0
              , result := .ok ["[Binary content from CID: " ++ pyStr cid
                  ++ "] - Use the resource URI ipfs://" ++ pyStr cid ++ " to access"] }
        else
          { registry := registry, notifications := 0
          , result := .ok ["Error fetching IPFS content: " ++ resp.statusMsg] }
  else
    { registry := registry, notifications := 0
    , result := .error ("Unknown tool: " ++ name) }

/-- One protocol operation issued by the orchestrator. -/
inductive Op where
  | listResources
  | readResource (uri : String)
  | listTools
  | callTool (name : String) (args : Args)

/-- The response of one operation. -/
inductive OpResult where
  | resources (r : Except String (List Resource))
  | content (c : Except FetchError String)
  | tools (t : List Tool)
  | toolResult (delivered : Nat) (res : Except String (List String))

/-- Dispatch one operation against the server state (the registry), returning
the state afterwards and the response. -/
def runOp (get : String → GetOutcome) (notify : Except String Unit)
    (st : Registry) : Op → Registry × OpResult
  | .listResources => (st, .resources (handle_list_resources st))
  | .readResource uri => (st, .content (handle_read_resource get uri))
  | .listTools => (st, .tools handle_list_tools)
  | .callTool name args =>
      let o := handle_call_tool get notify st name args
      (o.registry, .toolResult o.notifications o.result)

/-- Registry states reachable from the pre-seeded state by any sequence of
operations. -/
inductive Reachable : Registry → Prop where
  | init : Reachable initRegistry
  | step (get : String → GetOutcome) (notify : Except String Unit) (op : Op)
      {r : Registry} : Reachable r → Reachable (runOp get notify r op).1

/-- Whether an operation is an `add_ipfs_resource` call whose `cid` argument is
a string of length at least 46. -/
def addCidOk : Op → Bool
  | .callTool name args =>
      if name = "add_ipfs_resource" then
        match args.cid with
        | some c => 46 ≤ strLen c
        | none => false
      else true
  | _ => true

/-- Registry states reachable when every `add_ipfs_resource` call supplies a
cid string of length at least 46. -/
inductive ReachableOk : Registry → Prop where
  | init : ReachableOk initRegistry
  | step (get : String → GetOutcome) (notify : Except String Unit) (op : Op)
      {r : Registry} : ReachableOk r → addCidOk op = true →
      ReachableOk (runOp get notify r op).1

/-- A registry key that is a string of length at least 46 (the length rule of
spec section 4.2). -/
def keyLenOk : PyVal → Bool
  | some c => 46 ≤ strLen c
  | none => false

/-- The descriptor `handle_list_resources` builds for a string-keyed entry,
as a total function (used to state what the handler returns on registries
without a `None` key). -/
def renderStr (p : PyVal × CidMeta) : Resource :=
  { uri := "ipfs://" ++ pyStr p.1
  , name := metaGet p.2.name? ("IPFS File " ++ strTake (pyStr p.1) 8 ++ "...")
  , description := metaGet p.2.description? ("Content from IPFS CID: " ++ pyStr p.1)
  , mimeType := metaGet p.2.mime_type? "application/octet-stream" }

@[simp] lemma except_isOk_ok {ε α : Type} (a : α) :
    (Except.ok a : Except ε α).isOk = true := rfl

@[simp] lemma except_isOk_error {ε α : Type} (e : ε) :
    (Except.error e : Except ε α).isOk = false := rfl

lemma strStartsWith_prefix_append (p s : String) : strStartsWith (p ++ s) p = true := by
  show p.data.isPrefixOf ((p ++ s).data) = true
  have h : (p ++ s).data = p.data ++ s.data := rfl
  rw [h, List.isPrefixOf_iff_prefix]
  exact List.prefix_append _ _

lemma strDrop_length_append (p s : String) : strDrop (p ++ s) p.data.length = s := by
  show String.mk (((p ++ s).data).drop p.data.length) = s
  have h : (p ++ s).data = p.data ++ s.data := rfl
  rw [h, List.drop_left]

lemma append_left_cancel_str {a b c : String} (h : a ++ b = a ++ c) : b = c := by
  have hd : a.data ++ b.data = a.data ++ c.data := by
    have : (a ++ b).data = (a ++ c).data := congrArg String.data h
    simpa using this
  have := List.append_cancel_left hd
  calc b = String.mk b.data := rfl
    _ = String.mk c.data := by rw [this]
    _ = c := rfl

lemma classifyFetch_error_shape (cid : String) (o : GetOutcome) (e : FetchError)
    (h : classifyFetch cid o = .error e) :
    (∃ d, e = .transportError d) ∨ e = .notFound cid ∨ ∃ st, e = .gatewayError st cid := by
  cases o with
  | fail d =>
      simp only [classifyFetch, Except.error.injEq] at h
      exact Or.inl ⟨d, h.symm⟩
  | ok resp =>
      by_cases h2 : 200 ≤ resp.status ∧ resp.status < 300
      · cases ht : resp.textDecode <;> simp [classifyFetch, h2, ht] at h
      · by_cases h4 : resp.status = 404
        · simp only [classifyFetch, if_neg h2, if_pos h4, Except.error.injEq] at h
          exact Or.inr (Or.inl h.symm)
        · simp only [classifyFetch, if_neg h2, if_neg h4, Except.error.injEq] at h
          exact Or.inr (Or.inr ⟨resp.status, h.symm⟩)

lemma mem_dictInsert {q : PyVal × CidMeta} {r : Registry} {k : PyVal} {v : CidMeta}
    (h : q ∈ dictInsert r k v) : q = (k, v) ∨ q ∈ r := by
  induction r with
  | nil => simpa [dictInsert] using h
  | cons p rest ih =>
      obtain ⟨k', v'⟩ := p
      by_cases hk : k' = k
      · simp only [dictInsert, if_pos hk, List.mem_cons] at h
        rcases h with h | h
        · exact Or.inl h
        · exact Or.inr (List.mem_cons_of_mem _ h)
      · simp only [dictInsert, if_neg hk, List.mem_cons] at h
        rcases h with h | h
        · exact Or.inr (h ▸ List.mem_cons_self _ _)
        · rcases ih h with h' | h'
          · exact Or.inl h'
          · exact Or.inr (List.mem_cons_of_mem _ h')

lemma dictGet_dictInsert_self (r : Registry) (k : PyVal) (v : CidMeta) :
    dictGet (dictInsert r k v) k = some v := by
  induction r with
  | nil => simp [dictInsert, dictGet]
  | cons p rest ih =>
      obtain ⟨k', v'⟩ := p
      by_cases hk : k' = k
      · simp [dictInsert, if_pos hk, dictGet]
      · simp [dictInsert, if_neg hk, dictGet, hk, ih]

lemma dictGet_dictInsert_ne (r : Registry) (k k' : PyVal) (v : CidMeta)
    (h : k' ≠ k) : dictGet (dictInsert r k v) k' = dictGet r k' := by
  induction r with
  | nil => simp [dictInsert, dictGet, Ne.symm h]
  | cons p rest ih =>
      obtain ⟨ka, va⟩ := p
      by_cases hk : ka = k
      · subst hk
        simp [dictInsert, dictGet, Ne.symm h]
      · by_cases hk' : ka = k'
        · subst hk'
          simp [dictInsert, if_neg hk, dictGet]
        · simp [dictInsert, if_neg hk, dictGet, hk', ih]

lemma mem_keys_dictInsert {k'' : PyVal} {r : Registry} {k : PyVal} {v : CidMeta}
    (h : k'' ∈ (dictInsert r k v).map Prod.fst) :
    k'' = k ∨ k'' ∈ r.map Prod.fst := by
  rcases List.mem_map.mp h with ⟨q, hq, hfst⟩
  rcases mem_dictInsert hq with h' | h'
  · exact Or.inl (by rw [← hfst, h'])
  · exact Or.inr (List.mem_map.mpr ⟨q, h', hfst⟩)

lemma nodup_keys_dictInsert {r : Registry} (k : PyVal) (v : CidMeta)
    (h : (r.map Prod.fst).Nodup) : ((dictInsert r k v).map Prod.fst).Nodup := by
  induction r with
  | nil => simp [dictInsert]
  | cons p rest ih =>
      obtain ⟨k', v'⟩ := p
      simp only [List.map_cons, List.nodup_cons] at h
      by_cases hk : k' = k
      · subst hk
        simpa [dictInsert, List.nodup_cons] using h
      · simp only [dictInsert, if_neg hk, List.map_cons, List.nodup_cons]
        refine ⟨fun hc => ?_, ih h.2⟩
        rcases mem_keys_dictInsert hc with h' | h'
        · exact hk h'
        · exact h.1 h'

lemma countP_keys_eq_zero {r : Registry} {k : PyVal}
    (h : k ∉ r.map Prod.fst) :
    r.countP (fun p => decide (p.1 = k)) = 0 := by
  induction r with
  | nil => simp
  | cons p rest ih =>
      simp only [List.map_cons, List.mem_cons, not_or] at h
      have hne : ¬ (p.1 = k) := fun hh => h.1 hh.symm
      simp [List.countP_cons, hne, ih h.2]

lemma countP_keys_dictInsert {r : Registry} (k : PyVal) (v : CidMeta)
    (h : (r.map Prod.fst).Nodup) :
    (dictInsert r k v).countP (fun p => decide (p.1 = k)) = 1 := by
  induction r with
  | nil => simp [dictInsert]
  | cons p rest ih =>
      obtain ⟨k', v'⟩ := p
      simp only [List.map_cons, List.nodup_cons] at h
      by_cases hk : k' = k
      · subst hk
        simp [dictInsert, List.countP_cons, countP_keys_eq_zero h.1]
      · simp [dictInsert, if_neg hk, List.countP_cons, hk, ih h.2]

example : b64encode [77, 97, 110] = "TWFu" := by decide

example : b64encode [77, 97] = "TWE=" := by decide

example :
    handle_read_resource (fun _ => .fail "boom") "ipfs://short"
      = .error (.invalidIdentifier "short") := rfl

/-- Claim C1: for every cid argument and every failure of the underlying fetch
(HTTP status or transport), `CallTool("fetch_ipfs_content", ...)` returns a
successful tool response whose text body describes the error and never fails at
the protocol level, whereas `ReadResource` surfaces every failure of
`resolveAddress` as a typed error that fails the operation itself: the read
succeeds exactly when validation passes, the GET returns a response, and the
status is 2xx. -/
theorem fetch_tool_never_fails_read_resource_surfaces
    (get : String → GetOutcome) (notify : Except String Unit) (r : Registry)
    (args : Args) (uri : String) :
    (handle_call_tool get notify r "fetch_ipfs_content" args).result.isOk = true
    ∧ (∀ d, get (IPFS_GATEWAY ++ pyStr args.cid) = .fail d →
        (handle_call_tool get notify r "fetch_ipfs_content" args).result
          = .ok ["Error fetching IPFS content: " ++ d])
    ∧ (∀ resp, get (IPFS_GATEWAY ++ pyStr args.cid) = .ok resp →
        ¬ (200 ≤ resp.status ∧ resp.status < 300) →
        (handle_call_tool get notify r "fetch_ipfs_content" args).result
          = .ok ["Error fetching IPFS content: " ++ resp.statusMsg])
    ∧ ((handle_read_resource get uri).isOk = true ↔
        (strStartsWith uri "ipfs://" = true
          ∧ ¬ (strDrop uri 7 = "" ∨ strLen (strDrop uri 7) < 46)
          ∧ ∃ resp, get (IPFS_GATEWAY ++ strDrop uri 7) = .ok resp
              ∧ 200 ≤ resp.status ∧ resp.status < 300)) := by
  refine ⟨?_, ?_, ?_, ?_⟩
  · cases hg : get (IPFS_GATEWAY ++ pyStr args.cid) with
    | fail d => simp [handle_call_tool, hg]
    | ok resp =>
        by_cases h2 : 200 ≤ resp.status ∧ resp.status < 300
        · cases ht : resp.textDecode <;> simp [handle_call_tool, hg, h2, ht]
        · simp [handle_call_tool, hg, h2]
  · intro d hg
    simp [handle_call_tool, hg]
  · intro resp hg h2
    simp [handle_call_tool, hg, h2]
  · by_cases hs : strStartsWith uri "ipfs://"
    · by_cases hlen : strDrop uri 7 = "" ∨ strLen (strDrop uri 7) < 46
      · simp [handle_read_resource, hs, hlen]
      · cases hg : get (IPFS_GATEWAY ++ strDrop uri 7) with
        | fail d =>
            simp [handle_read_resource, hs, hlen, fetchCore, classifyFetch, hg]
        | ok resp =>
            by_cases h2 : 200 ≤ resp.status ∧ resp.status < 300
            · cases ht : resp.textDecode <;>
                simp [handle_read_resource, hs, hlen, fetchCore, classifyFetch,
                  hg, h2, ht]
            · by_cases h4 : resp.status = 404 <;>
                simp [handle_read_resource, hs, hlen, fetchCore, classifyFetch,
                  hg, h2, h4]
    · simp [handle_read_resource, hs]

/-- Concrete instances of C1: a transport failure is reported as a successful
tool response with an error-describing body, while the same failing gateway
makes `ReadResource` fail; a 2xx text response makes `ReadResource` succeed. -/
theorem fetch_tool_never_fails_read_resource_surfaces_w :
    (handle_call_tool (fun _ => .fail "connection refused") (.ok ()) initRegistry
        "fetch_ipfs_content"
        { cid := some "abc", name := none, description := none, mime_type := none }).result
      = .ok ["Error fetching IPFS content: connection refused"]
    ∧ (handle_read_resource (fun _ => .fail "connection refused")
        "ipfs://QmYwAPJzv5CZsnA625s3Xf2nemtYgPpHdWEz79ojWnPbdG").isOk = false
    ∧ (handle_read_resource
        (fun _ => .ok { status := 200, content := [], textDecode := some "hi", statusMsg := "" })
        "ipfs://QmYwAPJzv5CZsnA625s3Xf2nemtYgPpHdWEz79ojWnPbdG").isOk = true := by
  have h1 := fetch_tool_never_fails_read_resource_surfaces
    (fun _ => .fail "connection refused") (.ok ()) initRegistry
    { cid := some "abc", name := none, description := none, mime_type := none }
    "ipfs://QmYwAPJzv5CZsnA625s3Xf2nemtYgPpHdWEz79ojWnPbdG"
  have h2 := fetch_tool_never_fails_read_resource_surfaces
    (fun _ => .ok { status := 200, content := [], textDecode := some "hi", statusMsg := "" })
    (.ok ()) initRegistry
    { cid := some "abc", name := none, description := none, mime_type := none }
    "ipfs://QmYwAPJzv5CZsnA625s3Xf2nemtYgPpHdWEz79ojWnPbdG"
  refine ⟨h1.2.1 "connection refused" rfl, ?_, ?_⟩
  · have hnot : ¬ ((handle_read_resource (fun _ => .fail "connection refused")
        "ipfs://QmYwAPJzv5CZsnA625s3Xf2nemtYgPpHdWEz79ojWnPbdG").isOk = true) := by
      rw [h1.2.2.2]
      rintro ⟨-, -, resp, hresp, -⟩
      cases hresp
    cases hb : (handle_read_resource (fun _ => .fail "connection refused")
        "ipfs://QmYwAPJzv5CZsnA625s3Xf2nemtYgPpHdWEz79ojWnPbdG").isOk
    · rfl
    · exact absurd hb hnot
  · exact h2.2.2.2.mpr ⟨by decide, by decide,
      ⟨{ status := 200, content := [], textDecode := some "hi", statusMsg := "" },
        rfl, by decide, by decide⟩⟩

/-- Claim C2: `fetch(cid)` issues a single GET against the gateway base URL
concatenated with the cid (the result depends on nothing but the outcome at
that one URL), and classifies the outcome exactly as: transport failure maps to
`TransportError`; status 404 maps to `NotFound(cid)`; any other non-2xx status
maps to `GatewayError(status, cid)`; a 2xx body that decodes as text is
returned exactly; a 2xx body that fails text decoding is returned as the
binary-content marker plus the base64 encoding of the raw bytes. -/
theorem fetch_single_get_classification
    (get get' : String → GetOutcome) (cid : String) (resp : HttpResponse) (d : String) :
    fetchCore get cid = classifyFetch cid (get (IPFS_GATEWAY ++ cid))
    ∧ (get (IPFS_GATEWAY ++ cid) = get' (IPFS_GATEWAY ++ cid) →
        fetchCore get cid = fetchCore get' cid)
    ∧ classifyFetch cid (.fail d) = .error (.transportError d)
    ∧ (resp.status = 404 → classifyFetch cid (.ok resp) = .error (.notFound cid))
    ∧ (¬ (200 ≤ resp.status ∧ resp.status < 300) → resp.status ≠ 404 →
        classifyFetch cid (.ok resp) = .error (.gatewayError resp.status cid))
    ∧ (200 ≤ resp.status → resp.status < 300 →
        (∀ t, resp.textDecode = some t → classifyFetch cid (.ok resp) = .ok t)
        ∧ (resp.textDecode = none →
            classifyFetch cid (.ok resp)
              = .ok ("[Binary content - Base64 encoded]\n" ++ b64encode resp.content))) := by
  refine ⟨rfl, ?_, rfl, ?_, ?_, ?_⟩
  · intro h
    simp only [fetchCore, h]
  · intro h404
    have h2 : ¬ (200 ≤ resp.status ∧ resp.status < 300) := by omega
    simp [classifyFetch, h2, h404]
  · intro h2 h404
    simp [classifyFetch, h2, h404]
  · intro hlo hhi
    have h2 : 200 ≤ resp.status ∧ resp.status < 300 := ⟨hlo, hhi⟩
    exact ⟨fun t ht => by simp [classifyFetch, h2, ht],
      fun ht => by simp [classifyFetch, h2, ht]⟩

/-- Concrete instances of C2: the four classifications at explicit inputs,
including the base64 rendering of the bytes of `"Man"`. -/
theorem fetch_single_get_classification_w :
    classifyFetch "c" (.fail "timed out") = .error (.transportError "timed out")
    ∧ classifyFetch "c" (.ok { status := 404, content := [], textDecode := none, statusMsg := "m" })
        = .error (.notFound "c")
    ∧ classifyFetch "c" (.ok { status := 500, content := [], textDecode := none, statusMsg := "m" })
        = .error (.gatewayError 500 "c")
    ∧ classifyFetch "c" (.ok { status := 200, content := [], textDecode := some "hi", statusMsg := "" })
        = .ok "hi"
    ∧ classifyFetch "c" (.ok { status := 200, content := [77, 97, 110], textDecode := none, statusMsg := "" })
        = .ok "[Binary content - Base64 encoded]\nTWFu" := by
  have h404 := fetch_single_get_classification (fun _ => .fail "x") (fun _ => .fail "x") "c"
    { status := 404, content := [], textDecode := none, statusMsg := "m" } "timed out"
  have h500 := fetch_single_get_classification (fun _ => .fail "x") (fun _ => .fail "x") "c"
    { status := 500, content := [], textDecode := none, statusMsg := "m" } "timed out"
  have h200 := fetch_single_get_classification (fun _ => .fail "x") (fun _ => .fail "x") "c"
    { status := 200, content := [], textDecode := some "hi", statusMsg := "" } "timed out"
  have hbin := fetch_single_get_classification (fun _ => .fail "x") (fun _ => .fail "x") "c"
    { status := 200, content := [77, 97, 110], textDecode := none, statusMsg := "" } "timed out"
  refine ⟨h404.2.2.1, h404.2.2.2.1 rfl, ?_, ?_, ?_⟩
  · exact h500.2.2.2.2.1 (by decide) (by decide)
  · exact (h200.2.2.2.2.2 (by decide) (by decide)).1 "hi" rfl
  · have := (hbin.2.2.2.2.2 (by decide) (by decide)).2 rfl
    rw [this]
    rfl

/-- Claim C3: `handle_read_resource` fails with `InvalidAddress` exactly when
the address does not begin with `ipfs://`; with the marker stripped, it fails
with `InvalidIdentifier` exactly when the candidate is empty or shorter than 46
characters; otherwise it delegates to the gateway fetch on the candidate. -/
theorem resolve_address_validation (get : String → GetOutcome) (address : String) :
    ((∃ u, handle_read_resource get address = .error (.invalidAddress u)) ↔
        strStartsWith address "ipfs://" = false)
    ∧ (strStartsWith address "ipfs://" = true →
        (((∃ c, handle_read_resource get address = .error (.invalidIdentifier c)) ↔
            (strDrop address 7 = "" ∨ strLen (strDrop address 7) < 46))
          ∧ (¬ (strDrop address 7 = "" ∨ strLen (strDrop address 7) < 46) →
              handle_read_resource get address = fetchCore get (strDrop address 7)))) := by
  constructor
  · by_cases hs : strStartsWith address "ipfs://"
    · simp only [hs, Bool.true_eq_false, iff_false]
      rintro ⟨u, hu⟩
      by_cases hlen : strDrop address 7 = "" ∨ strLen (strDrop address 7) < 46
      · simp [handle_read_resource, hs, hlen] at hu
      · simp only [handle_read_resource, hs, Bool.not_true, not_false_eq_true,
          if_false, hlen, if_neg] at hu
        rcases classifyFetch_error_shape _ _ _ hu with ⟨d, hd⟩ | hd | ⟨st, hd⟩ <;> cases hd
    · simp only [Bool.not_eq_true] at hs
      simp only [hs, iff_true]
      refine ⟨address, ?_⟩
      simp [handle_read_resource, hs]
  · intro hs
    constructor
    · by_cases hlen : strDrop address 7 = "" ∨ strLen (strDrop address 7) < 46
      · simp only [hlen, iff_true]
        refine ⟨strDrop address 7, ?_⟩
        simp [handle_read_resource, hs, hlen]
      · simp only [hlen, iff_false]
        rintro ⟨c, hc⟩
        simp only [handle_read_resource, hs, Bool.not_true, not_false_eq_true,
          if_false, hlen, if_neg] at hc
        rcases classifyFetch_error_shape _ _ _ hc with ⟨d, hd⟩ | hd | ⟨st, hd⟩ <;> cases hd
    · intro hlen
      simp [handle_read_resource, hs, hlen]

/-- Concrete instances of C3: a non-ipfs address is rejected as invalid, a
short candidate is rejected as an invalid identifier, and a long-enough
candidate reaches the gateway fetch. -/
theorem resolve_address_validation_w :
    (∃ u, handle_read_resource (fun _ => .fail "x") "http://example.com"
        = .error (.invalidAddress u))
    ∧ (∃ c, handle_read_resource (fun _ => .fail "x") "ipfs://short"
        = .error (.invalidIdentifier c))
    ∧ handle_read_resource (fun _ => .fail "x")
        "ipfs://QmYwAPJzv5CZsnA625s3Xf2nemtYgPpHdWEz79ojWnPbdG"
      = fetchCore (fun _ => .fail "x") "QmYwAPJzv5CZsnA625s3Xf2nemtYgPpHdWEz79ojWnPbdG" := by
  have h1 := resolve_address_validation (fun _ => .fail "x") "http://example.com"
  have h2 := resolve_address_validation (fun _ => .fail "x") "ipfs://short"
  have h3 := resolve_address_validation (fun _ => .fail "x")
    "ipfs://QmYwAPJzv5CZsnA625s3Xf2nemtYgPpHdWEz79ojWnPbdG"
  refine ⟨h1.1.mpr (by decide), ((h2.2 (by decide)).1).mpr (by decide), ?_⟩
  have := (h3.2 (by decide)).2 (by decide)
  simpa using this

/-- The registry after `handle_call_tool`: only the `add_ipfs_resource` branch
writes to `known_cids`, before the notification is sent. -/
lemma handle_call_tool_registry_eq (get : String → GetOutcome)
    (notify : Except String Unit) (r : Registry) (name : String) (args : Args) :
    (handle_call_tool get notify r name args).registry =
      if name = "add_ipfs_resource" then
        dictInsert r args.cid
          { name? := some args.name
          , description? := some (some (args.description.getD
              ("Content from IPFS CID: " ++ pyStr args.cid)))
          , mime_type? := some (some (args.mime_type.getD "application/octet-stream")) }
      else r := by
  by_cases hn : name = "add_ipfs_resource"
  · cases notify <;> simp [handle_call_tool, hn]
  · by_cases hf : name = "fetch_ipfs_content"
    · cases hg : get (IPFS_GATEWAY ++ pyStr args.cid) with
      | fail d => simp [handle_call_tool, hn, hf, hg]
      | ok resp =>
          by_cases h2 : 200 ≤ resp.status ∧ resp.status < 300
          · cases ht : resp.textDecode <;> simp [handle_call_tool, hn, hf, hg, h2, ht]
          · simp [handle_call_tool, hn, hf, hg, h2]
    · simp [handle_call_tool, hn, hf]

/-- Claim C4 (code bug): `CallTool("add_ipfs_resource", {"name": "n"})` with
the required `cid` argument absent does not fail with a missing-argument
error; `arguments.get("cid")` yields `None`, the handler inserts an entry
under the `None` key, and it returns a success confirmation reading
`CID: None`. -/
theorem add_missing_cid_succeeds_and_mutates :
    (handle_call_tool (fun _ => .fail "unused") (.ok ()) initRegistry
        "add_ipfs_resource"
        { cid := none, name := some "n", description := none, mime_type := none }).result
      = .ok ["Successfully added IPFS resource: n (CID: None)"]
    ∧ dictGet (handle_call_tool (fun _ => .fail "unused") (.ok ()) initRegistry
        "add_ipfs_resource"
        { cid := none, name := some "n", description := none, mime_type := none }).registry
        none
      = some { name? := some (some "n")
             , description? := some (some "Content from IPFS CID: None")
             , mime_type? := some (some "application/octet-stream") } :=
  ⟨rfl, rfl⟩

/-- Claim C5 counterexample: from the pre-seeded state, a single
`add_ipfs_resource` call with the one-character cid `"x"` reaches a registry
state containing the key `"x"`, which violates the 46-character length rule. -/
theorem short_cid_key_reachable :
    Reachable (runOp (fun _ => .fail "unused") (.ok ()) initRegistry
        (.callTool "add_ipfs_resource"
          { cid := some "x", name := some "nm", description := none, mime_type := none })).1
    ∧ some "x" ∈ ((runOp (fun _ => .fail "unused") (.ok ()) initRegistry
        (.callTool "add_ipfs_resource"
          { cid := some "x", name := some "nm", description := none, mime_type := none })).1).map
        Prod.fst
    ∧ keyLenOk (some "x") = false := by
  exact ⟨Reachable.step _ _ _ Reachable.init, by decide, by decide⟩

/-- Claim C5 amended: `add_ipfs_resource` itself never checks its cid, so the
length invariant holds exactly on the runs whose adds all supply a cid string
of length at least 46; in every state reachable under that restriction, every
registry key is such a string. -/
theorem reachable_keys_len_ok {r : Registry} (h : ReachableOk r) :
    ∀ p ∈ r, keyLenOk p.1 = true := by
  induction h with
  | init =>
      intro p hp
      simp only [initRegistry, List.mem_singleton] at hp
      subst hp
      decide
  | step get notify op hok hr ih =>
      intro p hp
      cases op with
      | listResources => exact ih p hp
      | readResource uri => exact ih p hp
      | listTools => exact ih p hp
      | callTool name args =>
          simp only [runOp] at hp
          by_cases hn : name = "add_ipfs_resource"
          · rw [handle_call_tool_registry_eq, if_pos hn] at hp
            rcases mem_dictInsert hp with h' | h'
            · subst h'
              simp only [addCidOk, hn, if_pos] at hr
              cases hc : args.cid with
              | none => rw [hc] at hr; cases hr
              | some c => rw [hc] at hr; simpa [keyLenOk, hc] using hr
            · exact ih p h'
          · rw [handle_call_tool_registry_eq, if_neg hn] at hp
            exact ih p hp

/-- Concrete instance of C5 as amended: the pre-seeded key of the reachable
initial state satisfies the length rule. -/
theorem reachable_keys_len_ok_w :
    keyLenOk (some "QmYwAPJzv5CZsnA625s3Xf2nemtYgPpHdWEz79ojWnPbdG") = true :=
  reachable_keys_len_ok ReachableOk.init
    (some "QmYwAPJzv5CZsnA625s3Xf2nemtYgPpHdWEz79ojWnPbdG",
      { name? := some (some "IPFS Introduction")
      , description? := some (some "An introduction to IPFS concepts")
      , mime_type? := some (some "text/plain") })
    (by decide)

/-- Claim C10: `ListResources`, `ReadResource`, `ListTools` and
`CallTool("fetch_ipfs_content")` leave the registry unchanged; the only
operation that writes to it is `CallTool("add_ipfs_resource")`, which changes
only the entry keyed by its own cid argument; and no operation ever removes an
existing key. -/
theorem only_add_mutates_registry (get : String → GetOutcome)
    (notify : Except String Unit) (st : Registry) (uri : String) (args : Args) :
    (runOp get notify st .listResources).1 = st
    ∧ (runOp get notify st (.readResource uri)).1 = st
    ∧ (runOp get notify st .listTools).1 = st
    ∧ (runOp get notify st (.callTool "fetch_ipfs_content" args)).1 = st
    ∧ (∀ nm, nm ≠ "add_ipfs_resource" → (runOp get notify st (.callTool nm args)).1 = st)
    ∧ (∀ k, k ≠ args.cid →
        dictGet (runOp get notify st (.callTool "add_ipfs_resource" args)).1 k
          = dictGet st k)
    ∧ (∀ op k, dictGet st k ≠ none → dictGet (runOp get notify st op).1 k ≠ none) := by
  refine ⟨rfl, rfl, rfl, ?_, ?_, ?_, ?_⟩
  · simp [runOp, handle_call_tool_registry_eq]
  · intro nm hnm
    simp [runOp, handle_call_tool_registry_eq, hnm]
  · intro k hk
    simp only [runOp, handle_call_tool_registry_eq, if_pos]
    exact dictGet_dictInsert_ne _ _ _ _ hk
  · intro op k hsome
    cases op with
    | listResources => exact hsome
    | readResource u => exact hsome
    | listTools => exact hsome
    | callTool nm args' =>
        simp only [runOp, handle_call_tool_registry_eq]
        by_cases hn : nm = "add_ipfs_resource"
        · rw [if_pos hn]
          by_cases hk : k = args'.cid
          · subst hk
            rw [dictGet_dictInsert_self]
            exact fun hc => Option.noConfusion hc
          · rw [dictGet_dictInsert_ne _ _ _ _ hk]
            exact hsome
        · rw [if_neg hn]
          exact hsome

/-- Concrete instance of C10: listing leaves the pre-seeded registry intact,
and an add under a fresh cid leaves the pre-seeded key's entry unchanged. -/
theorem only_add_mutates_registry_w :
    (runOp (fun _ => .fail "x") (.ok ()) initRegistry .listResources).1 = initRegistry
    ∧ dictGet (runOp (fun _ => .fail "x") (.ok ()) initRegistry
        (.callTool "add_ipfs_resource"
          { cid := some "x", name := some "n", description := none, mime_type := none })).1
        (some "QmYwAPJzv5CZsnA625s3Xf2nemtYgPpHdWEz79ojWnPbdG")
      = dictGet initRegistry (some "QmYwAPJzv5CZsnA625s3Xf2nemtYgPpHdWEz79ojWnPbdG") := by
  have h := only_add_mutates_registry (fun _ => .fail "x") (.ok ()) initRegistry "u"
    { cid := some "x", name := some "n", description := none, mime_type := none }
  exact ⟨h.1, h.2.2.2.2.2.1 _ (by decide)⟩

lemma countP_eq_one_of_nodup_mem {α : Type} [DecidableEq α] {l : List α} {a : α}
    (h : l.Nodup) (ha : a ∈ l) : l.countP (fun x => decide (x = a)) = 1 := by
  induction l with
  | nil => cases ha
  | cons b rest ih =>
      simp only [List.nodup_cons] at h
      rcases List.mem_cons.mp ha with hb | hb
      · subst hb
        have hz : rest.countP (fun x => decide (x = a)) = 0 := by
          apply List.countP_eq_zero.mpr
          intro x hx
          simp only [decide_eq_true_eq]
          exact fun hxa => h.1 (hxa ▸ hx)
        simp [List.countP_cons, hz]
      · have hba : ¬ (b = a) := fun hh => h.1 (hh ▸ hb)
        simp [List.countP_cons, hba, ih h.2 hb]

/-- Each registry entry renders to exactly one descriptor when no key is the
Python `None` value. -/
lemma handle_list_resources_eq_map {r : Registry}
    (hs : ∀ p ∈ r, p.1 ≠ none) :
    handle_list_resources r = .ok (r.map renderStr) := by
  induction r with
  | nil => rfl
  | cons p rest ih =>
      obtain ⟨k, m⟩ := p
      cases k with
      | none => exact absurd rfl (hs (none, m) (List.mem_cons_self _ _))
      | some c =>
          have hrest : ∀ q ∈ rest, q.1 ≠ none :=
            fun q hq => hs q (List.mem_cons_of_mem _ hq)
          simp [handle_list_resources, renderEntry, ih hrest, renderStr, pyStr]

/-- Claim C6: on a registry whose keys are distinct actual CID strings,
`ListResources` returns one descriptor per tracked entry, in insertion order,
each with address `ipfs://` followed by the entry's cid and with absent name,
description and mimeType filled by the truncated-cid placeholder, the
cid-templated description and `application/octet-stream`; in particular every
cid present in the registry owns exactly one descriptor address. -/
theorem list_resources_one_descriptor_per_entry (r : Registry)
    (hnd : (r.map Prod.fst).Nodup) (hs : ∀ p ∈ r, p.1 ≠ none) :
    handle_list_resources r = .ok (r.map renderStr)
    ∧ (∀ p ∈ r, renderStr p =
        { uri := "ipfs://" ++ pyStr p.1
        , name := metaGet p.2.name? ("IPFS File " ++ strTake (pyStr p.1) 8 ++ "...")
        , description := metaGet p.2.description? ("Content from IPFS CID: " ++ pyStr p.1)
        , mimeType := metaGet p.2.mime_type? "application/octet-stream" })
    ∧ ∀ c : String, some c ∈ r.map Prod.fst →
        (r.map renderStr).countP (fun x => decide (x.uri = "ipfs://" ++ c)) = 1 := by
  refine ⟨handle_list_resources_eq_map hs, fun p _ => rfl, ?_⟩
  intro c hc
  rw [List.countP_map]
  have hcong : ∀ p ∈ r,
      ((fun x => decide (x.uri = "ipfs://" ++ c)) ∘ renderStr) p = true
        ↔ (fun p : PyVal × CidMeta => decide (p.1 = some c)) p = true := by
    intro p hp
    cases hk : p.1 with
    | none => exact absurd hk (hs p hp)
    | some s =>
        simp only [Function.comp_apply, renderStr, hk, pyStr, decide_eq_true_eq]
        constructor
        · intro hu
          rw [append_left_cancel_str hu]
        · intro hsc
          rw [Option.some.injEq] at hsc
          rw [hsc]
  rw [List.countP_congr hcong]
  have : r.countP (fun p => decide (p.1 = some c))
      = (r.map Prod.fst).countP (fun k => decide (k = some c)) := by
    rw [List.countP_map]
    rfl
  rw [this]
  exact countP_eq_one_of_nodup_mem hnd hc

/-- Concrete instance of C6 at the pre-seeded registry. -/
theorem list_resources_one_descriptor_per_entry_w :
    handle_list_resources initRegistry = .ok (initRegistry.map renderStr)
    ∧ (initRegistry.map renderStr).countP
        (fun x => decide (x.uri
          = "ipfs://" ++ "QmYwAPJzv5CZsnA625s3Xf2nemtYgPpHdWEz79ojWnPbdG")) = 1 := by
  have h := list_resources_one_descriptor_per_entry initRegistry (by decide) (by decide)
  exact ⟨h.1, h.2.2 _ (by decide)⟩

/-- Claim C7 counterexample: when delivery of the registry-changed
notification raises, the `add_ipfs_resource` call itself fails — the exception
is not caught — even though the entry was already inserted. -/
theorem notify_failure_fails_add :
    (handle_call_tool (fun _ => .fail "unused") (.error "stream closed") initRegistry
        "add_ipfs_resource"
        { cid := some "QmNewAAAAABBBBBCCCCCDDDDDEEEEEFFFFFGGGGGHHHHH1"
        , name := some "nm", description := none, mime_type := none }).result
      = .error "stream closed"
    ∧ dictGet (handle_call_tool (fun _ => .fail "unused") (.error "stream closed") initRegistry
        "add_ipfs_resource"
        { cid := some "QmNewAAAAABBBBBCCCCCDDDDDEEEEEFFFFFGGGGGHHHHH1"
        , name := some "nm", description := none, mime_type := none }).registry
        (some "QmNewAAAAABBBBBCCCCCDDDDDEEEEEFFFFFGGGGGHHHHH1")
      = some { name? := some (some "nm")
             , description? := some (some
                 "Content from IPFS CID: QmNewAAAAABBBBBCCCCCDDDDDEEEEEFFFFFGGGGGHHHHH1")
             , mime_type? := some (some "application/octet-stream") } :=
  ⟨rfl, rfl⟩

/-- Claim C7 amended: with `cid` and `name` both present the entry is
inserted; when notification delivery succeeds, exactly one notification is
delivered and the returned confirmation text contains both the name and the
cid; when delivery fails, the exception propagates and the call itself fails
(the insertion having already happened). -/
theorem add_inserts_notifies_confirms (get : String → GetOutcome)
    (notify : Except String Unit) (r : Registry) (c n : String) (args : Args)
    (hc : args.cid = some c) (hn : args.name = some n) :
    (handle_call_tool get notify r "add_ipfs_resource" args).registry
      = dictInsert r (some c)
          { name? := some (some n)
          , description? := some (some (args.description.getD
              ("Content from IPFS CID: " ++ c)))
          , mime_type? := some (some (args.mime_type.getD "application/octet-stream")) }
    ∧ (notify = .ok () →
        (handle_call_tool get notify r "add_ipfs_resource" args).notifications = 1
        ∧ (handle_call_tool get notify r "add_ipfs_resource" args).result
          = .ok ["Successfully added IPFS resource: " ++ n ++ " (CID: " ++ c ++ ")"]
        ∧ ∃ pre mid post,
            "Successfully added IPFS resource: " ++ n ++ " (CID: " ++ c ++ ")"
              = pre ++ n ++ mid ++ c ++ post)
    ∧ (∀ d, notify = .error d →
        (handle_call_tool get notify r "add_ipfs_resource" args).result = .error d) := by
  refine ⟨?_, ?_, ?_⟩
  · rw [handle_call_tool_registry_eq, if_pos rfl, hc, hn]
    rfl
  · intro hok
    subst hok
    refine ⟨?_, ?_, ⟨"Successfully added IPFS resource: ", " (CID: ", ")", rfl⟩⟩
    · simp [handle_call_tool, hc, hn]
    · simp [handle_call_tool, hc, hn, pyStr]
  · intro d hd
    subst hd
    simp [handle_call_tool, hc, hn]

/-- Concrete instance of C7 as amended: a successful add returns the
confirmation embedding name and cid and delivers one notification. -/
theorem add_inserts_notifies_confirms_w :
    (handle_call_tool (fun _ => .fail "unused") (.ok ()) initRegistry "add_ipfs_resource"
        { cid := some "QmNewAAAAABBBBBCCCCCDDDDDEEEEEFFFFFGGGGGHHHHH1"
        , name := some "Test Resource", description := some "A test resource"
        , mime_type := none }).result
      = .ok ["Successfully added IPFS resource: Test Resource (CID: QmNewAAAAABBBBBCCCCCDDDDDEEEEEFFFFFGGGGGHHHHH1)"]
    ∧ (handle_call_tool (fun _ => .fail "unused") (.ok ()) initRegistry "add_ipfs_resource"
        { cid := some "QmNewAAAAABBBBBCCCCCDDDDDEEEEEFFFFFGGGGGHHHHH1"
        , name := some "Test Resource", description := some "A test resource"
        , mime_type := none }).notifications = 1 := by
  have h := add_inserts_notifies_confirms (fun _ => .fail "unused") (.ok ()) initRegistry
    "QmNewAAAAABBBBBCCCCCDDDDDEEEEEFFFFFGGGGGHHHHH1" "Test Resource"
    { cid := some "QmNewAAAAABBBBBCCCCCDDDDDEEEEEFFFFFGGGGGHHHHH1"
    , name := some "Test Resource", description := some "A test resource"
    , mime_type := none } rfl rfl
  have h2 := h.2.1 rfl
  exact ⟨h2.2.1.trans (by rfl), h2.1⟩

/-- Claim C8: the fetch tool applies no scheme-marker handling and no length
check — for every cid string, even shorter than 46 characters, it consults the
gateway at exactly the base URL concatenated with that string and returns its
classification — whereas `ReadResource` on `ipfs://` plus the same string
rejects it as an invalid identifier whenever it is shorter than 46
characters. -/
theorem dual_validation_asymmetry (s : String) (get get' : String → GetOutcome)
    (notify : Except String Unit) (r : Registry) :
    (get (IPFS_GATEWAY ++ s) = get' (IPFS_GATEWAY ++ s) →
        handle_call_tool get notify r "fetch_ipfs_content"
          { cid := some s, name := none, description := none, mime_type := none }
          = handle_call_tool get' notify r "fetch_ipfs_content"
            { cid := some s, name := none, description := none, mime_type := none })
    ∧ (handle_call_tool get notify r "fetch_ipfs_content"
        { cid := some s, name := none, description := none, mime_type := none }).result.isOk
        = true
    ∧ (∀ resp t, get (IPFS_GATEWAY ++ s) = .ok resp → 200 ≤ resp.status →
        resp.status < 300 → resp.textDecode = some t →
        (handle_call_tool get notify r "fetch_ipfs_content"
          { cid := some s, name := none, description := none, mime_type := none }).result
          = .ok [t])
    ∧ (strLen s < 46 →
        handle_read_resource get ("ipfs://" ++ s) = .error (.invalidIdentifier s)) := by
  have hdrop : strDrop ("ipfs://" ++ s) 7 = s := strDrop_length_append "ipfs://" s
  refine ⟨?_, ?_, ?_, ?_⟩
  · intro h
    cases hg : get (IPFS_GATEWAY ++ s) with
    | fail d =>
        have hg' : get' (IPFS_GATEWAY ++ s) = .fail d := by rw [← h, hg]
        simp [handle_call_tool, pyStr, hg, hg']
    | ok resp =>
        have hg' : get' (IPFS_GATEWAY ++ s) = .ok resp := by rw [← h, hg]
        simp [handle_call_tool, pyStr, hg, hg']
  · cases hg : get (IPFS_GATEWAY ++ s) with
    | fail d => simp [handle_call_tool, pyStr, hg]
    | ok resp =>
        by_cases h2 : 200 ≤ resp.status ∧ resp.status < 300
        · cases ht : resp.textDecode <;> simp [handle_call_tool, pyStr, hg, h2, ht]
        · simp [handle_call_tool, pyStr, hg, h2]
  · intro resp t hg hlo hhi ht
    simp [handle_call_tool, pyStr, hg, ht, hlo, hhi]
  · intro hlen
    have hstart : strStartsWith ("ipfs://" ++ s) "ipfs://" = true :=
      strStartsWith_prefix_append _ _
    simp [handle_read_resource, hstart, hdrop, hlen]

/-- Concrete instance of C8 with the short cid `"abc"`: the tool fetches and
returns the gateway body while the read path rejects the address. -/
theorem dual_validation_asymmetry_w :
    (handle_call_tool
        (fun _ => .ok { status := 200, content := [], textDecode := some "body", statusMsg := "" })
        (.ok ()) initRegistry "fetch_ipfs_content"
        { cid := some "abc", name := none, description := none, mime_type := none }).result
      = .ok ["body"]
    ∧ handle_read_resource
        (fun _ => .ok { status := 200, content := [], textDecode := some "body", statusMsg := "" })
        ("ipfs://" ++ "abc")
      = .error (.invalidIdentifier "abc") := by
  have h := dual_validation_asymmetry "abc"
    (fun _ => .ok { status := 200, content := [], textDecode := some "body", statusMsg := "" })
    (fun _ => .ok { status := 200, content := [], textDecode := some "body", statusMsg := "" })
    (.ok ()) initRegistry
  exact ⟨h.2.2.1 _ "body" rfl (by decide) (by decide) rfl, h.2.2.2 (by decide)⟩

/-- Claim C9: calling `add_ipfs_resource` twice with the same cid and
different metadata leaves exactly one entry keyed by that cid, carrying the
second call's metadata (last-write-wins), and leaves every other key's entry
untouched. -/
theorem add_twice_last_write_wins (get : String → GetOutcome)
    (notify : Except String Unit) (r : Registry) (c n1 n2 : String)
    (d1 d2 m1 m2 : Option String) (hnd : (r.map Prod.fst).Nodup) :
    (((handle_call_tool get notify
        (handle_call_tool get notify r "add_ipfs_resource"
          { cid := some c, name := some n1, description := d1, mime_type := m1 }).registry
        "add_ipfs_resource"
        { cid := some c, name := some n2, description := d2, mime_type := m2 }).registry).countP
        (fun p => decide (p.1 = some c)) = 1)
    ∧ dictGet (handle_call_tool get notify
        (handle_call_tool get notify r "add_ipfs_resource"
          { cid := some c, name := some n1, description := d1, mime_type := m1 }).registry
        "add_ipfs_resource"
        { cid := some c, name := some n2, description := d2, mime_type := m2 }).registry
        (some c)
      = some { name? := some (some n2)
             , description? := some (some (d2.getD ("Content from IPFS CID: " ++ c)))
             , mime_type? := some (some (m2.getD "application/octet-stream")) }
    ∧ ∀ k, k ≠ some c →
        dictGet (handle_call_tool get notify
          (handle_call_tool get notify r "add_ipfs_resource"
            { cid := some c, name := some n1, description := d1, mime_type := m1 }).registry
          "add_ipfs_resource"
          { cid := some c, name := some n2, description := d2, mime_type := m2 }).registry k
        = dictGet r k := by
  rw [handle_call_tool_registry_eq, if_pos rfl, handle_call_tool_registry_eq, if_pos rfl]
  refine ⟨?_, ?_, ?_⟩
  · exact countP_keys_dictInsert _ _ (nodup_keys_dictInsert _ _ hnd)
  · rw [dictGet_dictInsert_self]
    rfl
  · intro k hk
    rw [dictGet_dictInsert_ne _ _ _ _ hk, dictGet_dictInsert_ne _ _ _ _ hk]

/-- Concrete instance of C9 at the pre-seeded registry. -/
theorem add_twice_last_write_wins_w :
    (((handle_call_tool (fun _ => .fail "unused") (.ok ())
        (handle_call_tool (fun _ => .fail "unused") (.ok ()) initRegistry "add_ipfs_resource"
          { cid := some "QmNewAAAAABBBBBCCCCCDDDDDEEEEEFFFFFGGGGGHHHHH1"
          , name := some "first", description := some "d1", mime_type := some "text/plain" }).registry
        "add_ipfs_resource"
        { cid := some "QmNewAAAAABBBBBCCCCCDDDDDEEEEEFFFFFGGGGGHHHHH1"
        , name := some "second", description := none, mime_type := none }).registry).countP
        (fun p => decide (p.1 = some "QmNewAAAAABBBBBCCCCCDDDDDEEEEEFFFFFGGGGGHHHHH1")) = 1)
    ∧ dictGet (handle_call_tool (fun _ => .fail "unused") (.ok ())
        (handle_call_tool (fun _ => .fail "unused") (.ok ()) initRegistry "add_ipfs_resource"
          { cid := some "QmNewAAAAABBBBBCCCCCDDDDDEEEEEFFFFFGGGGGHHHHH1"
          , name := some "first", description := some "d1", mime_type := some "text/plain" }).registry
        "add_ipfs_resource"
        { cid := some "QmNewAAAAABBBBBCCCCCDDDDDEEEEEFFFFFGGGGGHHHHH1"
        , name := some "second", description := none, mime_type := none }).registry
        (some "QmNewAAAAABBBBBCCCCCDDDDDEEEEEFFFFFGGGGGHHHHH1")
      = some { name? := some (some "second")
             , description? := some (some
                 "Content from IPFS CID: QmNewAAAAABBBBBCCCCCDDDDDEEEEEFFFFFGGGGGHHHHH1")
             , mime_type? := some (some "application/octet-stream") } := by
  have h := add_twice_last_write_wins (fun _ => .fail "unused") (.ok ()) initRegistry
    "QmNewAAAAABBBBBCCCCCDDDDDEEEEEFFFFFGGGGGHHHHH1" "first" "second"
    (some "d1") none (some "text/plain") none (by decide)
  exact ⟨h.1, h.2.1⟩

end IPFSMcp
